import Mathlib

/-!
Shallow embedding of the payroll calculation engine of
`backend/services/calc.py` (UK PAYE / NI / pension engine).

Python `Decimal` values are modelled as exact rationals (`ℚ`): the engine's
arithmetic on the quantities appearing here (sums, differences, products by
tabulated rates, divisions by 12) is exact decimal arithmetic, which this
model reproduces.  Python's `round(x, 2)` on a `Decimal` quantizes with the
context-default rounding `ROUND_HALF_EVEN` (the `ROUND_HALF_UP` imported at
the top of `calc.py` is never used); it is modelled by `round2` below.  The
trailing `float(...)` conversion in `calculate_payroll`'s return statement is
a change of number representation outside this exact-decimal model; the
breakdown fields below are the exact 2-decimal values that conversion
receives.
-/

namespace HRMS

/-- TAX_RATES 2024/25 from calc.py: basic rate 20%. -/
def basic_rate : ℚ := 20/100

/-- TAX_RATES: higher rate 40%. -/
def higher_rate : ℚ := 40/100

/-- TAX_RATES: additional rate 45%. -/
def additional_rate : ℚ := 45/100

/-- TAX_BANDS: personal allowance. -/
def personal_allowance : ℚ := 12570

/-- TAX_BANDS: basic rate limit. -/
def basic_rate_limit : ℚ := 50270

/-- TAX_BANDS: higher rate limit. -/
def higher_rate_limit : ℚ := 125140

/-- NI_RATES: employee rate 12%. -/
def ni_employee_rate : ℚ := 12/100

/-- NI_RATES: employee higher rate 2%. -/
def ni_employee_higher_rate : ℚ := 2/100

/-- NI_RATES: employer rate 13.8%. -/
def ni_employer_rate : ℚ := 138/1000

/-- NI_THRESHOLDS: primary threshold (annual). -/
def ni_primary_threshold : ℚ := 12570

/-- NI_THRESHOLDS: upper earnings limit (annual). -/
def ni_upper_earnings_limit : ℚ := 50270

/-- NI_THRESHOLDS: employer threshold (annual). -/
def ni_employer_threshold : ℚ := 9100

/-- STUDENT_LOAN_THRESHOLDS dictionary from calc.py. -/
def STUDENT_LOAN_THRESHOLDS : List (String × ℚ) :=
  [("plan_1", 22015), ("plan_2", 27295), ("plan_4", 27660), ("plan_5", 25000)]

/-- STUDENT_LOAN_RATES dictionary from calc.py (every plan 9%). -/
def STUDENT_LOAN_RATES : List (String × ℚ) :=
  [("plan_1", 9/100), ("plan_2", 9/100), ("plan_4", 9/100), ("plan_5", 9/100)]

/-- Python `dict.get(key, default)` on a string-keyed rate table. -/
def dictGet (d : List (String × ℚ)) (k : String) (dflt : ℚ) : ℚ :=
  match d.find? (fun kv => kv.1 == k) with
  | some kv => kv.2
  | none => dflt

/-- HMRC_PENSION_SCHEMES from calc.py: scheme key, employee rate,
employer rate (descriptions dropped).  Every approved scheme carries
employee rate 5% and employer rate 3%; the sentinel scheme carries 0%/0%. -/
def HMRC_PENSION_SCHEMES : List (String × ℚ × ℚ) :=
  [("auto_enrolment", 5/100, 3/100),
   ("nest", 5/100, 3/100),
   ("peoples_pension", 5/100, 3/100),
   ("smart_pension", 5/100, 3/100),
   ("aviva_workplace", 5/100, 3/100),
   ("royal_london", 5/100, 3/100),
   ("scottish_widows", 5/100, 3/100),
   ("legal_general", 5/100, 3/100),
   ("aegon", 5/100, 3/100),
   ("standard_life", 5/100, 3/100),
   ("none", 0, 0)]

/-- Python `HMRC_PENSION_SCHEMES.get(scheme, {})`: the (employee, employer)
rate pair of a scheme, if the scheme is in the table. -/
def schemeEntry (scheme : String) : Option (ℚ × ℚ) :=
  (HMRC_PENSION_SCHEMES.find? (fun kv => kv.1 == scheme)).map (fun kv => kv.2)

/-- calculate_paye_tax from calc.py.  The employee argument is consumed only
through `employee.tax_code`, passed here directly.  The Scottish-prefix
branch of the source is a no-op (`pass`), so it adds nothing here. -/
def calculate_paye_tax (tax_code : String) (annual_salary monthly_gross : ℚ) : ℚ :=
  if tax_code = "BR" then monthly_gross * basic_rate
  else if tax_code = "D0" then monthly_gross * higher_rate
  else if tax_code = "D1" then monthly_gross * additional_rate
  else if tax_code = "NT" then 0
  else
    let annual_taxable_income := max 0 (annual_salary - personal_allowance)
    let basic_rate_taxable := min annual_taxable_income (basic_rate_limit - personal_allowance)
    let tax_basic := if basic_rate_taxable > 0 then basic_rate_taxable * basic_rate else 0
    let tax_higher :=
      if annual_taxable_income > basic_rate_limit - personal_allowance then
        let higher_rate_taxable :=
          min (annual_taxable_income - (basic_rate_limit - personal_allowance))
            (higher_rate_limit - basic_rate_limit)
        if higher_rate_taxable > 0 then higher_rate_taxable * higher_rate else 0
      else 0
    let tax_additional :=
      if annual_taxable_income > higher_rate_limit - personal_allowance then
        let additional_rate_taxable :=
          annual_taxable_income - (higher_rate_limit - personal_allowance)
        if additional_rate_taxable > 0 then additional_rate_taxable * additional_rate else 0
      else 0
    (tax_basic + tax_higher + tax_additional) / 12

/-- calculate_ni_contribution from calc.py.  The employee argument of the
source is unused in the body; `monthly_gross` is received and ignored,
exactly as in the source. -/
def calculate_ni_contribution (annual_salary monthly_gross : ℚ) : ℚ :=
  let monthly_salary := annual_salary / 12
  let primary_threshold_monthly := ni_primary_threshold / 12
  let upper_earnings_limit_monthly := ni_upper_earnings_limit / 12
  if monthly_salary > primary_threshold_monthly then
    (let basic_ni_taxable :=
      min (monthly_salary - primary_threshold_monthly)
        (upper_earnings_limit_monthly - primary_threshold_monthly)
     let contrib_basic := if basic_ni_taxable > 0 then basic_ni_taxable * ni_employee_rate else 0
     let contrib_higher :=
       if monthly_salary > upper_earnings_limit_monthly then
         (monthly_salary - upper_earnings_limit_monthly) * ni_employee_higher_rate
       else 0
     contrib_basic + contrib_higher)
  else 0

/-- calculate_employer_ni from calc.py; `monthly_gross` is received and
ignored, exactly as in the source. -/
def calculate_employer_ni (annual_salary monthly_gross : ℚ) : ℚ :=
  let monthly_salary := annual_salary / 12
  let employer_threshold_monthly := ni_employer_threshold / 12
  if monthly_salary > employer_threshold_monthly then
    (monthly_salary - employer_threshold_monthly) * ni_employer_rate
  else 0

/-- calculate_pension_contribution from calc.py: the employee argument is
consumed through `employee.pension_scheme` and `employee.pension_contribution`
(the optional custom rate), passed here directly. -/
def calculate_pension_contribution (pension_scheme : String) (custom_rate : Option ℚ)
    (gross_pay : ℚ) : ℚ :=
  if pension_scheme = "none" then 0
  else
    let pension_rate :=
      match custom_rate with
      | some r => r
      | none => ((schemeEntry pension_scheme).map (fun kv => kv.1)).getD (5/100)
    gross_pay * pension_rate

/-- calculate_student_loan from calc.py: Python's falsy test
`not student_loan_plan` covers both an absent plan and the empty string. -/
def calculate_student_loan (student_loan_plan : Option String)
    (annual_salary monthly_gross : ℚ) : ℚ :=
  match student_loan_plan with
  | none => 0
  | some plan =>
    if plan = "" ∨ plan = "none" then 0
    else
      let threshold := dictGet STUDENT_LOAN_THRESHOLDS plan 27295
      let rate := dictGet STUDENT_LOAN_RATES plan (9/100)
      let monthly_threshold := threshold / 12
      if monthly_gross > monthly_threshold then (monthly_gross - monthly_threshold) * rate
      else 0

/-- calculate_employer_pension from calc.py: the employee argument is
consumed through `employee.pension_scheme` and
`employee.employer_pension_contribution`, passed here directly. -/
def calculate_employer_pension (pension_scheme : String) (custom_employer_rate : Option ℚ)
    (gross_pay : ℚ) : ℚ :=
  if pension_scheme = "none" then 0
  else
    let employer_pension_rate :=
      match custom_employer_rate with
      | some r => r
      | none => ((schemeEntry pension_scheme).map (fun kv => kv.2)).getD (3/100)
    gross_pay * employer_pension_rate

/-- Round-half-even of a rational to an integer: the rounding Python's
`round` applies to a `Decimal` (the decimal context default
ROUND_HALF_EVEN). -/
def rhe (q : ℚ) : ℤ :=
  if q - ⌊q⌋ < 1/2 then ⌊q⌋
  else if 1/2 < q - ⌊q⌋ then ⌊q⌋ + 1
  else if ⌊q⌋ % 2 = 0 then ⌊q⌋ else ⌊q⌋ + 1

/-- Python `round(x, 2)` on a `Decimal`: quantize at 2 decimal places with
half-even tie-breaking.  This is the rounding `calculate_payroll` applies to
every monetary field of its returned breakdown. -/
def round2 (q : ℚ) : ℚ := (rhe (q * 100) : ℚ) / 100

/-- Round-half-up of a rational to an integer.  Written from the spec's
words (round-half-up at 2 decimals): calc.py imports ROUND_HALF_UP but never
uses it, so this definition exists only to be compared with `round2`. -/
def rhu (q : ℚ) : ℤ :=
  if q - ⌊q⌋ < 1/2 then ⌊q⌋ else ⌊q⌋ + 1

/-- Round-half-up at 2 decimal places, the rounding the spec claims the
engine uses. -/
def round2up (q : ℚ) : ℚ := (rhu (q * 100) : ℚ) / 100

/-- A rational is a whole number of pence (an exact multiple of 0.01). -/
def isPence (q : ℚ) : Prop := ∃ k : ℤ, q = (k : ℚ) / 100

/-- The slice of the Employee ORM model consumed by the calculation engine
(duck-typed `employee` argument in calc.py): annual salary, tax code,
pension scheme, optional custom employee/employer pension rates, optional
student loan plan. -/
structure Employee where
  salary : ℚ
  tax_code : String
  pension_scheme : String
  pension_contribution : Option ℚ
  employer_pension_contribution : Option ℚ
  student_loan_plan : Option String

/-- The payslip_data dictionary consumed by calculate_payroll (each key read
with default 0.0 in the source). -/
structure PayslipData where
  basic_pay : ℚ
  overtime_pay : ℚ
  bonus_pay : ℚ
  other_pay : ℚ
  other_deductions : ℚ

/-- The dictionary returned by calculate_payroll.  In the source every value
is `float(round(x, 2))`; the fields here are the exact 2-decimal values
`round(x, 2)` produces, before the final float conversion. -/
structure PayrollBreakdown where
  gross_pay : ℚ
  basic_pay : ℚ
  overtime_pay : ℚ
  bonus_pay : ℚ
  other_pay : ℚ
  paye_tax : ℚ
  national_insurance : ℚ
  pension_contribution : ℚ
  student_loan : ℚ
  other_deductions : ℚ
  net_pay : ℚ
  employer_ni : ℚ
  employer_pension : ℚ
  total_employer_cost : ℚ

/-- calculate_payroll from calc.py (the `async` wrapper is pure). -/
def calculate_payroll (employee : Employee) (payslip_data : PayslipData) : PayrollBreakdown :=
  let basic_pay := payslip_data.basic_pay
  let overtime_pay := payslip_data.overtime_pay
  let bonus_pay := payslip_data.bonus_pay
  let other_pay := payslip_data.other_pay
  let gross_pay := basic_pay + overtime_pay + bonus_pay + other_pay
  let annual_salary := employee.salary
  let paye_tax := calculate_paye_tax employee.tax_code annual_salary gross_pay
  let ni_contribution := calculate_ni_contribution annual_salary gross_pay
  let pension_contribution :=
    calculate_pension_contribution employee.pension_scheme employee.pension_contribution gross_pay
  let student_loan := calculate_student_loan employee.student_loan_plan annual_salary gross_pay
  let other_deductions := payslip_data.other_deductions
  let net_pay :=
    gross_pay - paye_tax - ni_contribution - pension_contribution - student_loan - other_deductions
  let employer_ni := calculate_employer_ni annual_salary gross_pay
  let employer_pension :=
    calculate_employer_pension employee.pension_scheme employee.employer_pension_contribution
      gross_pay
  let total_employer_cost := gross_pay + employer_ni + employer_pension
  { gross_pay := round2 gross_pay
    basic_pay := round2 basic_pay
    overtime_pay := round2 overtime_pay
    bonus_pay := round2 bonus_pay
    other_pay := round2 other_pay
    paye_tax := round2 paye_tax
    national_insurance := round2 ni_contribution
    pension_contribution := round2 pension_contribution
    student_loan := round2 student_loan
    other_deductions := round2 other_deductions
    net_pay := round2 net_pay
    employer_ni := round2 employer_ni
    employer_pension := round2 employer_pension
    total_employer_cost := round2 total_employer_cost }

/-- A Python string modelled as the list of its Unicode code points.
Python's str.upper / str.isalpha / str.isdigit are Unicode-wide; the model
below covers their behaviour on the ASCII block, on the fullwidth Latin
block (code points 65313-65338 and 65345-65370) and on the superscript
digits — enough to express both the validator's behaviour on ordinary NI
numbers and its acceptance of non-ASCII letters and digits.  The rest of
Unicode (other letter scripts, other digit classes, and multi-character
case expansions such as the sharp s uppercasing to SS) is outside the
model. -/
abbrev PyStr := List Nat

/-- str.upper on one code point, on the modelled blocks: an ASCII lowercase
letter a-z (97-122) and a fullwidth lowercase Latin letter (65345-65370)
each shift down by 32 to the corresponding capital; every other modelled
code point is case-unchanged, as in Python. -/
def pyUpperChar (c : Nat) : Nat :=
  if (97 ≤ c ∧ c ≤ 122) ∨ (65345 ≤ c ∧ c ≤ 65370) then c - 32 else c

/-- str.isalpha on one code point: true of every Unicode letter.  The model
covers ASCII A-Z and a-z and the fullwidth Latin letters (65313-65338,
65345-65370), so the validator's acceptance of non-ASCII letters is
expressible; other Unicode letters are outside the model. -/
def pyIsAlpha (c : Nat) : Bool :=
  decide ((65 ≤ c ∧ c ≤ 90) ∨ (97 ≤ c ∧ c ≤ 122) ∨
    (65313 ≤ c ∧ c ≤ 65338) ∨ (65345 ≤ c ∧ c ≤ 65370))

/-- str.isdigit on one code point: true of every character with Unicode
Numeric_Type Digit.  The model covers ASCII 0-9 (48-57), the fullwidth
digits (65296-65305) and the superscript digits two, three and one (178,
179, 185), so the validator's acceptance of non-ASCII digits is
expressible; other Unicode digits are outside the model. -/
def pyIsDigit (c : Nat) : Bool :=
  decide ((48 ≤ c ∧ c ≤ 57) ∨ (65296 ≤ c ∧ c ≤ 65305) ∨ c = 178 ∨ c = 179 ∨ c = 185)

/-- The blocklist of administratively invalid two-letter NI prefixes from
calc.py, as code-point pairs: BG, GB, NK, KN, TN, NT, ZZ. -/
def invalid_prefixes : List PyStr :=
  [[66, 71], [71, 66], [78, 75], [75, 78], [84, 78], [78, 84], [90, 90]]

/-- The body of validate_ni_number after the falsy test: length check,
slice-wise class checks (`ni[0:2].isalpha()`, `ni[2:8].isdigit()`,
`ni[8].isalpha()`), then the prefix blocklist check, each an early `return
False` in the source. -/
def validate_core (n : PyStr) : Bool :=
  if n.length ≠ 9 then false
  else if !((n.take 2).all pyIsAlpha && ((n.drop 2).take 6).all pyIsDigit
      && (n.drop 8).all pyIsAlpha) then false
  else if n.take 2 ∈ invalid_prefixes then false
  else true

/-- validate_ni_number from calc.py: falsy test, then strip spaces (code
point 32), uppercase, and run the checks of `validate_core`. -/
def validate_ni_number (s : PyStr) : Bool :=
  if s = [] then false
  else validate_core ((s.filter (fun c => c != 32)).map pyUpperChar)

/-- Code point of an uppercase letter A-Z. -/
def isAZ (c : Nat) : Prop := 65 ≤ c ∧ c ≤ 90

/-- Code point of a decimal digit 0-9. -/
def isDigitCode (c : Nat) : Prop := 48 ≤ c ∧ c ≤ 57

/-- The spec's description of a well-formed normalized NI number: exactly 9
characters matching two letters A-Z, six digits, one letter A-Z, with the
two-letter prefix outside the blocklist. -/
def niNumberPattern (n : PyStr) : Prop :=
  ∃ a b d1 d2 d3 d4 d5 d6 z,
    n = [a, b, d1, d2, d3, d4, d5, d6, z] ∧
    isAZ a ∧ isAZ b ∧ isDigitCode d1 ∧ isDigitCode d2 ∧ isDigitCode d3 ∧
    isDigitCode d4 ∧ isDigitCode d5 ∧ isDigitCode d6 ∧ isAZ z ∧
    [a, b] ∉ invalid_prefixes

/-- The spec's validity predicate for a raw NI-number string: after removing
spaces and uppercasing, the result matches `niNumberPattern`. -/
def niSpec (s : PyStr) : Prop :=
  niNumberPattern ((s.filter (fun c => c != 32)).map pyUpperChar)

/-- Rounding an integer-valued rational changes nothing. -/
lemma rhe_intCast (k : ℤ) : rhe (k : ℚ) = k := by
  unfold rhe
  rw [Int.floor_intCast]
  norm_num

/-- round2 is the identity on whole numbers of pence. -/
lemma round2_pence {q : ℚ} (h : isPence q) : round2 q = q := by
  obtain ⟨k, rfl⟩ := h
  unfold round2
  have h100 : (k : ℚ) / 100 * 100 = (k : ℚ) := by field_simp
  rw [h100, rhe_intCast]

/-- round2 always produces a whole number of pence. -/
lemma isPence_round2 (q : ℚ) : isPence (round2 q) := ⟨rhe (q * 100), rfl⟩

/-- Evaluation of round2 from the floor of the scaled value, below the tie. -/
lemma round2_eq_of_floor (q : ℚ) (m : ℤ) (hf : ⌊q * 100⌋ = m)
    (hlt : q * 100 - m < 1/2) : round2 q = (m : ℚ) / 100 := by
  unfold round2 rhe
  rw [hf, if_pos hlt]

/-- Evaluation of round2 at an exact half-penny tie with an even floor: the
tie is resolved downward (half-even). -/
lemma round2_eq_of_floor_tie_even (q : ℚ) (m : ℤ) (hf : ⌊q * 100⌋ = m)
    (heq : q * 100 - m = 1/2) (hev : m % 2 = 0) : round2 q = (m : ℚ) / 100 := by
  unfold round2 rhe
  rw [hf, heq, if_neg (by norm_num), if_neg (by norm_num), if_pos hev]

/-- Whole numbers of pence are closed under subtraction. -/
lemma isPence_sub {a b : ℚ} (ha : isPence a) (hb : isPence b) : isPence (a - b) := by
  obtain ⟨j, rfl⟩ := ha
  obtain ⟨k, rfl⟩ := hb
  exact ⟨j - k, by push_cast; ring⟩

/-- Evaluation of round2 strictly above the tie: rounds upward. -/
lemma round2_eq_of_floor_gt (q : ℚ) (m : ℤ) (hf : ⌊q * 100⌋ = m)
    (hgt : 1/2 < q * 100 - m) : round2 q = ((m + 1 : ℤ) : ℚ) / 100 := by
  unfold round2 rhe
  rw [hf, if_neg (by linarith), if_pos hgt]

/-- Evaluation of round2up at or above the tie: rounds upward. -/
lemma round2up_eq_of_floor_up (q : ℚ) (m : ℤ) (hf : ⌊q * 100⌋ = m)
    (hge : 1/2 ≤ q * 100 - m) : round2up q = ((m + 1 : ℤ) : ℚ) / 100 := by
  unfold round2up rhu
  rw [hf, if_neg (not_lt.mpr hge)]

/-- The basic-rate slice of the PAYE banding, as a guarded product. -/
lemma paye_band_basic (t : ℚ) (ht : 0 ≤ t) :
    (if min t 37700 > (0:ℚ) then min t 37700 * (20/100) else 0)
      = min t 37700 * (20/100) := by
  split_ifs with h
  · rfl
  · push_neg at h
    have hmin : min t 37700 = 0 := le_antisymm h (le_min ht (by norm_num))
    rw [hmin]; ring

/-- The higher-rate slice of the PAYE banding, as a max/min expression. -/
lemma paye_band_higher (t : ℚ) :
    (if t > 37700 then
      (if min (t - 37700) 74870 > (0:ℚ) then min (t - 37700) 74870 * (40/100) else 0)
    else 0) = max 0 (min (t - 37700) 74870) * (40/100) := by
  split_ifs with h h2
  · rw [max_eq_right (le_of_lt h2)]
  · exfalso
    have : (0:ℚ) < min (t - 37700) 74870 := lt_min (by linarith) (by norm_num)
    exact h2 this
  · rw [max_eq_left (le_trans (min_le_left _ _) (by linarith))]; ring

/-- The additional-rate slice of the PAYE banding, as a max expression. -/
lemma paye_band_additional (t : ℚ) :
    (if t > 112570 then
      (if t - 112570 > (0:ℚ) then (t - 112570) * (45/100) else 0)
    else 0) = max 0 (t - 112570) * (45/100) := by
  split_ifs with h h2
  · rw [max_eq_right (le_of_lt h2)]
  · exfalso; exact h2 (by linarith)
  · rw [max_eq_left (by linarith)]; ring

/-- Closed form of the numeric-allowance branch of calculate_paye_tax: the
annual tax is the sum of the three band slices, written with min/max. -/
lemma paye_numeric_eq (tax_code : String) (hBR : tax_code ≠ "BR") (hD0 : tax_code ≠ "D0")
    (hD1 : tax_code ≠ "D1") (hNT : tax_code ≠ "NT") (s g : ℚ) :
    calculate_paye_tax tax_code s g =
      (min (max 0 (s - 12570)) 37700 * (20/100)
        + max 0 (min (max 0 (s - 12570) - 37700) 74870) * (40/100)
        + max 0 (max 0 (s - 12570) - 112570) * (45/100)) / 12 := by
  simp only [calculate_paye_tax, personal_allowance, basic_rate, higher_rate, additional_rate,
    basic_rate_limit, higher_rate_limit]
  rw [if_neg hBR, if_neg hD0, if_neg hD1, if_neg hNT]
  have h1 : (50270 : ℚ) - 12570 = 37700 := by norm_num
  have h2 : (125140 : ℚ) - 50270 = 74870 := by norm_num
  have h3 : (125140 : ℚ) - 12570 = 112570 := by norm_num
  rw [h1, h2, h3, paye_band_basic (max 0 (s - 12570)) (le_max_left 0 (s - 12570)),
    paye_band_higher (max 0 (s - 12570)), paye_band_additional (max 0 (s - 12570))]

/-- Closed form of calculate_ni_contribution: the 12% slice between the
monthly primary threshold and the monthly upper earnings limit plus the 2%
slice above the limit, written with min/max. -/
lemma ni_closed_eq (s g : ℚ) :
    calculate_ni_contribution s g =
      min (max 0 (s/12 - 12570/12)) (50270/12 - 12570/12) * (12/100)
        + max 0 (s/12 - 50270/12) * (2/100) := by
  simp only [calculate_ni_contribution, ni_primary_threshold, ni_upper_earnings_limit,
    ni_employee_rate, ni_employee_higher_rate]
  rcases le_or_lt (s/12) (12570/12) with h | h
  · rw [if_neg (not_lt.mpr h), max_eq_left (by linarith),
      min_eq_left (by norm_num), max_eq_left (by linarith)]
    ring
  · rw [if_pos h, max_eq_right (by linarith)]
    have hb : min (s/12 - 12570/12) (50270/12 - 12570/12) > 0 :=
      lt_min (by linarith) (by norm_num)
    rw [if_pos hb]
    rcases le_or_lt (s/12) (50270/12) with h2 | h2
    · rw [if_neg (not_lt.mpr h2), max_eq_left (by linarith)]
      ring
    · rw [if_pos h2, max_eq_right (by linarith)]

/-- Closed form of calculate_employer_ni: 13.8% of the slice of monthly
salary above the monthly employer (secondary) threshold, uncapped. -/
lemma employer_ni_closed_eq (s g : ℚ) :
    calculate_employer_ni s g = max 0 (s/12 - 9100/12) * (138/1000) := by
  simp only [calculate_employer_ni, ni_employer_threshold, ni_employer_rate]
  rcases le_or_lt (s/12) (9100/12) with h | h
  · rw [if_neg (not_lt.mpr h), max_eq_left (by linarith)]
    ring
  · rw [if_pos h, max_eq_right (by linarith)]

/-- Claim C4: the flat special tax codes BR/D0/D1 charge 20%/40%/45% of the
current period's gross pay (so BR with gross 3000 gives exactly 600), NT
charges nothing for any salary, and under NT the breakdown's national
insurance is the same as under the numeric-allowance code 1257L (NI is
computed normally, independent of the tax code). -/
theorem flat_tax_codes (s g : ℚ) (e : Employee) (p : PayslipData) :
    calculate_paye_tax "BR" s g = g * (20/100) ∧
    calculate_paye_tax "D0" s g = g * (40/100) ∧
    calculate_paye_tax "D1" s g = g * (45/100) ∧
    calculate_paye_tax "NT" s g = 0 ∧
    calculate_paye_tax "BR" s 3000 = 600 ∧
    (calculate_payroll { e with tax_code := "NT" } p).national_insurance =
      (calculate_payroll { e with tax_code := "1257L" } p).national_insurance := by
  refine ⟨?_, ?_, ?_, ?_, ?_, rfl⟩
  · simp only [calculate_paye_tax, if_true, eq_self_iff_true]
    norm_num [basic_rate]
  · simp only [calculate_paye_tax, if_true, eq_self_iff_true]
    rw [if_neg (by decide)]
    norm_num [higher_rate]
  · simp only [calculate_paye_tax, if_true, eq_self_iff_true]
    rw [if_neg (by decide), if_neg (by decide)]
    norm_num [additional_rate]
  · simp only [calculate_paye_tax, if_true, eq_self_iff_true]
    rw [if_neg (by decide), if_neg (by decide), if_neg (by decide)]
  · simp only [calculate_paye_tax, if_true, eq_self_iff_true]
    norm_num [basic_rate]

/-- Claim C10: employee and employer National Insurance depend only on the
annual salary; the monthly gross argument (overtime, bonus or other pay in
the period) never changes either charge. -/
theorem ni_independent_of_monthly_gross (s g1 g2 : ℚ) :
    calculate_ni_contribution s g1 = calculate_ni_contribution s g2 ∧
    calculate_employer_ni s g1 = calculate_employer_ni s g2 :=
  ⟨rfl, rfl⟩

/-- Claim C6: with pension scheme `none` both pension contributions are 0,
any supplied override rate notwithstanding; with any other approved scheme
the employee contribution is gross pay times the override rate when one is
supplied and the scheme's published default employee rate otherwise. -/
theorem pension_none_and_default_rates (g r : ℚ) (cr : Option ℚ) (scheme : String)
    (rates : ℚ × ℚ) :
    calculate_pension_contribution "none" (some r) g = 0 ∧
    calculate_employer_pension "none" (some r) g = 0 ∧
    (schemeEntry scheme = some rates → scheme ≠ "none" →
      calculate_pension_contribution scheme cr g = g * cr.getD rates.1) := by
  refine ⟨rfl, rfl, fun hentry hnone => ?_⟩
  simp only [calculate_pension_contribution]
  rw [if_neg hnone]
  cases cr with
  | none => simp [hentry]
  | some c => rfl

/-- Witness for pension_none_and_default_rates: the approved scheme `nest`
with an override rate of 7% charges 7% of gross pay, and with no override
charges its published default 5%. -/
theorem pension_none_and_default_rates_witness :
    calculate_pension_contribution "nest" (some (7/100)) 1000 = 1000 * (7/100) ∧
    calculate_pension_contribution "nest" none 1000 = 1000 * (5/100) := by
  constructor
  · exact (pension_none_and_default_rates 1000 0 (some (7/100)) "nest" (5/100, 3/100)).2.2
      (by rfl) (by decide)
  · exact (pension_none_and_default_rates 1000 0 none "nest" (5/100, 3/100)).2.2
      (by rfl) (by decide)

/-- Claim C5: employee NI is 0 at or below the monthly primary threshold and
otherwise charges 12% on the slice between the monthly primary threshold and
the monthly upper earnings limit plus 2% on any amount above it (additive
slices); employer NI charges 13.8% on the slice of monthly salary above the
monthly secondary threshold with no upper cap; at annual salary 9000 both
the employee NI and the employer NI of the returned breakdown are 0.00. -/
theorem ni_banding (s g : ℚ) (e : Employee) (p : PayslipData) :
    (s/12 ≤ 12570/12 → calculate_ni_contribution s g = 0) ∧
    (12570/12 < s/12 →
      calculate_ni_contribution s g =
        min (s/12 - 12570/12) (50270/12 - 12570/12) * (12/100)
          + max 0 (s/12 - 50270/12) * (2/100)) ∧
    calculate_employer_ni s g = max 0 (s/12 - 9100/12) * (138/1000) ∧
    calculate_ni_contribution 9000 g = 0 ∧
    (calculate_payroll { e with salary := 9000 } p).national_insurance = 0 ∧
    (calculate_payroll { e with salary := 9000 } p).employer_ni = 0 := by
  have hni0 : ∀ gx : ℚ, calculate_ni_contribution (9000:ℚ) gx = 0 := by
    intro gx
    rw [ni_closed_eq]
    norm_num [min_def, max_def]
  have hemp0 : ∀ gx : ℚ, calculate_employer_ni (9000:ℚ) gx = 0 := by
    intro gx
    rw [employer_ni_closed_eq]
    norm_num [max_def]
  refine ⟨?_, ?_, employer_ni_closed_eq s g, hni0 g, ?_, ?_⟩
  · intro h
    rw [ni_closed_eq, max_eq_left (by linarith), min_eq_left (by norm_num),
      max_eq_left (by linarith)]
    ring
  · intro h
    rw [ni_closed_eq, max_eq_right (by linarith)]
  · show round2 (calculate_ni_contribution 9000 _) = 0
    rw [hni0]
    exact round2_pence ⟨0, by norm_num⟩
  · show round2 (calculate_employer_ni 9000 _) = 0
    rw [hemp0]
    exact round2_pence ⟨0, by norm_num⟩

/-- Witness for ni_banding: salary 9000 is below the threshold and yields 0;
salary 24000 is above it and yields the banded slices. -/
theorem ni_banding_witness :
    calculate_ni_contribution 9000 0 = 0 ∧
    calculate_ni_contribution 24000 0 =
      min (24000/12 - 12570/12) (50270/12 - 12570/12) * (12/100)
        + max 0 (24000/12 - 50270/12) * (2/100) := by
  constructor
  · exact (ni_banding 9000 0 ⟨0, "1257L", "none", none, none, none⟩ ⟨0, 0, 0, 0, 0⟩).1
      (by norm_num)
  · exact (ni_banding 24000 0 ⟨0, "1257L", "none", none, none, none⟩ ⟨0, 0, 0, 0, 0⟩).2.1
      (by norm_num)

/-- Claim C7: under the numeric-allowance code 1257L, an annual salary
exactly at the personal allowance yields zero monthly PAYE, a salary one
penny above it yields a strictly positive monthly PAYE, and any salary at
or below the allowance yields zero monthly PAYE. -/
theorem personal_allowance_boundary (g s : ℚ) (hs : s ≤ 12570) :
    calculate_paye_tax "1257L" 12570 g = 0 ∧
    calculate_paye_tax "1257L" (12570 + 1/100) g > 0 ∧
    calculate_paye_tax "1257L" s g = 0 := by
  refine ⟨?_, ?_, ?_⟩
  · rw [paye_numeric_eq "1257L" (by decide) (by decide) (by decide) (by decide) 12570 g]
    norm_num [min_def, max_def]
  · rw [paye_numeric_eq "1257L" (by decide) (by decide) (by decide) (by decide)
      (12570 + 1/100) g]
    norm_num [min_def, max_def]
  · rw [paye_numeric_eq "1257L" (by decide) (by decide) (by decide) (by decide) s g,
      max_eq_left (by linarith)]
    norm_num [min_def, max_def]

/-- Witness for personal_allowance_boundary at salary 12000. -/
theorem personal_allowance_boundary_witness :
    calculate_paye_tax "1257L" 12570 0 = 0 ∧
    calculate_paye_tax "1257L" (12570 + 1/100) 0 > 0 ∧
    calculate_paye_tax "1257L" 12000 0 = 0 := by
  have h := personal_allowance_boundary 0 12000 (by norm_num)
  exact ⟨h.1, h.2.1, h.2.2⟩

/-- Claim C8: with the tax code held fixed at any non-special (numeric
allowance) code, both the monthly PAYE tax and the employee NI contribution
are monotonically non-decreasing in the annual salary. -/
theorem paye_ni_monotone (tax_code : String) (g s1 s2 : ℚ) (hBR : tax_code ≠ "BR")
    (hD0 : tax_code ≠ "D0") (hD1 : tax_code ≠ "D1") (hNT : tax_code ≠ "NT")
    (h : s1 ≤ s2) :
    calculate_paye_tax tax_code s1 g ≤ calculate_paye_tax tax_code s2 g ∧
    calculate_ni_contribution s1 g ≤ calculate_ni_contribution s2 g := by
  constructor
  · rw [paye_numeric_eq tax_code hBR hD0 hD1 hNT s1 g,
      paye_numeric_eq tax_code hBR hD0 hD1 hNT s2 g]
    have m : max 0 (s1 - 12570) ≤ max 0 (s2 - 12570) := max_le_max le_rfl (by linarith)
    gcongr
  · rw [ni_closed_eq s1 g, ni_closed_eq s2 g]
    have m : max 0 (s1/12 - 12570/12) ≤ max 0 (s2/12 - 12570/12) :=
      max_le_max le_rfl (by linarith)
    gcongr

/-- Witness for paye_ni_monotone with the 1257L code at salaries 20000 and
30000. -/
theorem paye_ni_monotone_witness :
    calculate_paye_tax "1257L" 20000 0 ≤ calculate_paye_tax "1257L" 30000 0 ∧
    calculate_ni_contribution 20000 0 ≤ calculate_ni_contribution 30000 0 := by
  exact paye_ni_monotone "1257L" 0 20000 30000 (by decide) (by decide) (by decide)
    (by decide) (by norm_num)

/-- Claim C2, evaluated at the claimed failing input: calc.py performs no
input validation — at a simultaneously invalid input (negative salary,
unrecognized tax code, unknown pension scheme, pension override rate 1.5
outside the unit interval, unknown student-loan plan) calculate_payroll
returns a complete breakdown: the unknown tax code falls through to the
numeric-allowance branch, the out-of-range pension rate is applied as
supplied, the unknown scheme defaults the employer pension to 3%, and the
unknown loan plan defaults to the plan_2 threshold.  No ValidationError
exists anywhere in the engine. -/
theorem invalid_input_full_breakdown :
    (calculate_payroll ⟨-5000, "XYZ", "unregistered_scheme", some (3/2), none, some "plan_9"⟩
        ⟨1000, 0, 0, 0, 0⟩).gross_pay = 1000 ∧
    (calculate_payroll ⟨-5000, "XYZ", "unregistered_scheme", some (3/2), none, some "plan_9"⟩
        ⟨1000, 0, 0, 0, 0⟩).paye_tax = 0 ∧
    (calculate_payroll ⟨-5000, "XYZ", "unregistered_scheme", some (3/2), none, some "plan_9"⟩
        ⟨1000, 0, 0, 0, 0⟩).national_insurance = 0 ∧
    (calculate_payroll ⟨-5000, "XYZ", "unregistered_scheme", some (3/2), none, some "plan_9"⟩
        ⟨1000, 0, 0, 0, 0⟩).pension_contribution = 1500 ∧
    (calculate_payroll ⟨-5000, "XYZ", "unregistered_scheme", some (3/2), none, some "plan_9"⟩
        ⟨1000, 0, 0, 0, 0⟩).student_loan = 0 ∧
    (calculate_payroll ⟨-5000, "XYZ", "unregistered_scheme", some (3/2), none, some "plan_9"⟩
        ⟨1000, 0, 0, 0, 0⟩).net_pay = -500 ∧
    (calculate_payroll ⟨-5000, "XYZ", "unregistered_scheme", some (3/2), none, some "plan_9"⟩
        ⟨1000, 0, 0, 0, 0⟩).employer_ni = 0 ∧
    (calculate_payroll ⟨-5000, "XYZ", "unregistered_scheme", some (3/2), none, some "plan_9"⟩
        ⟨1000, 0, 0, 0, 0⟩).employer_pension = 30 ∧
    (calculate_payroll ⟨-5000, "XYZ", "unregistered_scheme", some (3/2), none, some "plan_9"⟩
        ⟨1000, 0, 0, 0, 0⟩).total_employer_cost = 1030 := by
  have hp : calculate_paye_tax "XYZ" (-5000) (1000 + 0 + 0 + 0) = 0 := by
    rw [paye_numeric_eq "XYZ" (by decide) (by decide) (by decide) (by decide)]
    norm_num [min_def, max_def]
  have hn : calculate_ni_contribution (-5000) (1000 + 0 + 0 + 0) = 0 := by
    rw [ni_closed_eq]
    norm_num [min_def, max_def]
  have hpen : calculate_pension_contribution "unregistered_scheme" (some (3/2))
      (1000 + 0 + 0 + 0) = 1500 := by
    simp only [calculate_pension_contribution]
    rw [if_neg (by decide)]
    norm_num
  have hsl : calculate_student_loan (some "plan_9") (-5000) (1000 + 0 + 0 + 0) = 0 := by
    simp only [calculate_student_loan]
    rw [if_neg (by decide),
      show dictGet STUDENT_LOAN_THRESHOLDS "plan_9" 27295 = 27295 from by decide,
      if_neg (by norm_num)]
  have heni : calculate_employer_ni (-5000) (1000 + 0 + 0 + 0) = 0 := by
    rw [employer_ni_closed_eq]
    norm_num [max_def]
  have hep : calculate_employer_pension "unregistered_scheme" none (1000 + 0 + 0 + 0) = 30 := by
    simp only [calculate_employer_pension]
    rw [if_neg (by decide), show schemeEntry "unregistered_scheme" = none from by decide]
    norm_num
  refine ⟨?_, ?_, ?_, ?_, ?_, ?_, ?_, ?_, ?_⟩
  · show round2 (1000 + 0 + 0 + 0) = 1000
    rw [show (1000:ℚ) + 0 + 0 + 0 = 1000 from by norm_num]
    exact round2_pence ⟨100000, by norm_num⟩
  · show round2 (calculate_paye_tax "XYZ" (-5000) (1000 + 0 + 0 + 0)) = 0
    rw [hp]
    exact round2_pence ⟨0, by norm_num⟩
  · show round2 (calculate_ni_contribution (-5000) (1000 + 0 + 0 + 0)) = 0
    rw [hn]
    exact round2_pence ⟨0, by norm_num⟩
  · show round2 (calculate_pension_contribution "unregistered_scheme" (some (3/2))
      (1000 + 0 + 0 + 0)) = 1500
    rw [hpen]
    exact round2_pence ⟨150000, by norm_num⟩
  · show round2 (calculate_student_loan (some "plan_9") (-5000) (1000 + 0 + 0 + 0)) = 0
    rw [hsl]
    exact round2_pence ⟨0, by norm_num⟩
  · show round2 ((1000 + 0 + 0 + 0) - calculate_paye_tax "XYZ" (-5000) (1000 + 0 + 0 + 0)
      - calculate_ni_contribution (-5000) (1000 + 0 + 0 + 0)
      - calculate_pension_contribution "unregistered_scheme" (some (3/2)) (1000 + 0 + 0 + 0)
      - calculate_student_loan (some "plan_9") (-5000) (1000 + 0 + 0 + 0) - 0) = -500
    rw [hp, hn, hpen, hsl,
      show ((1000:ℚ) + 0 + 0 + 0) - 0 - 0 - 1500 - 0 - 0 = -500 from by norm_num]
    exact round2_pence ⟨-50000, by norm_num⟩
  · show round2 (calculate_employer_ni (-5000) (1000 + 0 + 0 + 0)) = 0
    rw [heni]
    exact round2_pence ⟨0, by norm_num⟩
  · show round2 (calculate_employer_pension "unregistered_scheme" none (1000 + 0 + 0 + 0)) = 30
    rw [hep]
    exact round2_pence ⟨3000, by norm_num⟩
  · show round2 ((1000 + 0 + 0 + 0) + calculate_employer_ni (-5000) (1000 + 0 + 0 + 0)
      + calculate_employer_pension "unregistered_scheme" none (1000 + 0 + 0 + 0)) = 1030
    rw [heni, hep, show ((1000:ℚ) + 0 + 0 + 0) + 0 + 30 = 1030 from by norm_num]
    exact round2_pence ⟨103000, by norm_num⟩

/-- Counterexample to claim C1: a valid input (salary 12630.30, tax code
1257L, no pension scheme, basic pay 3000) whose exact monthly PAYE is 1.005
and exact NI is 0.603.  The fields are rounded independently, so the
returned breakdown has net_pay = 2998.39 while gross_pay minus the rounded
deductions is 3000 - 1.00 - 0.60 = 2998.40: the identity between the
rounded fields fails by a penny. -/
theorem net_pay_rounded_identity_cex :
    ¬((calculate_payroll ⟨126303/10, "1257L", "none", none, none, none⟩
        ⟨3000, 0, 0, 0, 0⟩).net_pay =
      (calculate_payroll ⟨126303/10, "1257L", "none", none, none, none⟩
        ⟨3000, 0, 0, 0, 0⟩).gross_pay
      - (calculate_payroll ⟨126303/10, "1257L", "none", none, none, none⟩
        ⟨3000, 0, 0, 0, 0⟩).paye_tax
      - (calculate_payroll ⟨126303/10, "1257L", "none", none, none, none⟩
        ⟨3000, 0, 0, 0, 0⟩).national_insurance
      - (calculate_payroll ⟨126303/10, "1257L", "none", none, none, none⟩
        ⟨3000, 0, 0, 0, 0⟩).pension_contribution
      - (calculate_payroll ⟨126303/10, "1257L", "none", none, none, none⟩
        ⟨3000, 0, 0, 0, 0⟩).student_loan
      - (calculate_payroll ⟨126303/10, "1257L", "none", none, none, none⟩
        ⟨3000, 0, 0, 0, 0⟩).other_deductions) := by
  have hp : calculate_paye_tax "1257L" (126303/10) (3000 + 0 + 0 + 0) = 201/200 := by
    rw [paye_numeric_eq "1257L" (by decide) (by decide) (by decide) (by decide)]
    norm_num [min_def, max_def]
  have hn : calculate_ni_contribution (126303/10) (3000 + 0 + 0 + 0) = 603/1000 := by
    rw [ni_closed_eq]
    norm_num [min_def, max_def]
  have hf_net : (calculate_payroll ⟨126303/10, "1257L", "none", none, none, none⟩
      ⟨3000, 0, 0, 0, 0⟩).net_pay = 299839/100 := by
    show round2 ((3000 + 0 + 0 + 0) - calculate_paye_tax "1257L" (126303/10) (3000 + 0 + 0 + 0)
      - calculate_ni_contribution (126303/10) (3000 + 0 + 0 + 0)
      - calculate_pension_contribution "none" none (3000 + 0 + 0 + 0)
      - calculate_student_loan none (126303/10) (3000 + 0 + 0 + 0) - 0) = 299839/100
    rw [hp, hn, show calculate_pension_contribution "none" none ((3000:ℚ) + 0 + 0 + 0) = 0
        from rfl,
      show calculate_student_loan none ((126303:ℚ)/10) (3000 + 0 + 0 + 0) = 0 from rfl,
      show ((3000:ℚ) + 0 + 0 + 0) - 201/200 - 603/1000 - 0 - 0 - 0 = 374799/125 from by
        norm_num,
      round2_eq_of_floor (374799/125) 299839 (by norm_num) (by push_cast; norm_num)]
    norm_num
  have hf_gross : (calculate_payroll ⟨126303/10, "1257L", "none", none, none, none⟩
      ⟨3000, 0, 0, 0, 0⟩).gross_pay = 3000 := by
    show round2 (3000 + 0 + 0 + 0) = 3000
    rw [show (3000:ℚ) + 0 + 0 + 0 = 3000 from by norm_num]
    exact round2_pence ⟨300000, by norm_num⟩
  have hf_paye : (calculate_payroll ⟨126303/10, "1257L", "none", none, none, none⟩
      ⟨3000, 0, 0, 0, 0⟩).paye_tax = 1 := by
    show round2 (calculate_paye_tax "1257L" (126303/10) (3000 + 0 + 0 + 0)) = 1
    rw [hp, round2_eq_of_floor_tie_even (201/200) 100 (by norm_num) (by push_cast; norm_num)
      (by decide)]
    norm_num
  have hf_ni : (calculate_payroll ⟨126303/10, "1257L", "none", none, none, none⟩
      ⟨3000, 0, 0, 0, 0⟩).national_insurance = 3/5 := by
    show round2 (calculate_ni_contribution (126303/10) (3000 + 0 + 0 + 0)) = 3/5
    rw [hn, round2_eq_of_floor (603/1000) 60 (by norm_num) (by push_cast; norm_num)]
    norm_num
  have hf_pen : (calculate_payroll ⟨126303/10, "1257L", "none", none, none, none⟩
      ⟨3000, 0, 0, 0, 0⟩).pension_contribution = 0 := by
    show round2 (calculate_pension_contribution "none" none (3000 + 0 + 0 + 0)) = 0
    rw [show calculate_pension_contribution "none" none ((3000:ℚ) + 0 + 0 + 0) = 0 from rfl]
    exact round2_pence ⟨0, by norm_num⟩
  have hf_sl : (calculate_payroll ⟨126303/10, "1257L", "none", none, none, none⟩
      ⟨3000, 0, 0, 0, 0⟩).student_loan = 0 := by
    show round2 (calculate_student_loan none (126303/10) (3000 + 0 + 0 + 0)) = 0
    rw [show calculate_student_loan none ((126303:ℚ)/10) (3000 + 0 + 0 + 0) = 0 from rfl]
    exact round2_pence ⟨0, by norm_num⟩
  have hf_od : (calculate_payroll ⟨126303/10, "1257L", "none", none, none, none⟩
      ⟨3000, 0, 0, 0, 0⟩).other_deductions = 0 := by
    show round2 0 = 0
    exact round2_pence ⟨0, by norm_num⟩
  intro hcon
  rw [hf_net, hf_gross, hf_paye, hf_ni, hf_pen, hf_sl, hf_od] at hcon
  norm_num at hcon

/-- Claim C1 (amended): the identity between the unrounded amounts holds
exactly by construction, and the identity between the rounded fields of the
returned breakdown holds whenever the exact gross pay and each of the five
exact deduction amounts is a whole number of pence; when some deduction
carries a fraction of a penny the independently rounded fields can disagree
by a penny (see the counterexample). -/
theorem net_pay_identity_pence (e : Employee) (p : PayslipData) (G : ℚ)
    (hGdef : G = p.basic_pay + p.overtime_pay + p.bonus_pay + p.other_pay)
    (hG : isPence G)
    (hT : isPence (calculate_paye_tax e.tax_code e.salary G))
    (hN : isPence (calculate_ni_contribution e.salary G))
    (hP : isPence (calculate_pension_contribution e.pension_scheme e.pension_contribution G))
    (hS : isPence (calculate_student_loan e.student_loan_plan e.salary G))
    (hO : isPence p.other_deductions) :
    (calculate_payroll e p).net_pay =
      (calculate_payroll e p).gross_pay - (calculate_payroll e p).paye_tax
        - (calculate_payroll e p).national_insurance
        - (calculate_payroll e p).pension_contribution
        - (calculate_payroll e p).student_loan
        - (calculate_payroll e p).other_deductions := by
  subst hGdef
  have hNet : isPence ((p.basic_pay + p.overtime_pay + p.bonus_pay + p.other_pay)
      - calculate_paye_tax e.tax_code e.salary
          (p.basic_pay + p.overtime_pay + p.bonus_pay + p.other_pay)
      - calculate_ni_contribution e.salary
          (p.basic_pay + p.overtime_pay + p.bonus_pay + p.other_pay)
      - calculate_pension_contribution e.pension_scheme e.pension_contribution
          (p.basic_pay + p.overtime_pay + p.bonus_pay + p.other_pay)
      - calculate_student_loan e.student_loan_plan e.salary
          (p.basic_pay + p.overtime_pay + p.bonus_pay + p.other_pay)
      - p.other_deductions) :=
    isPence_sub (isPence_sub (isPence_sub (isPence_sub (isPence_sub hG hT) hN) hP) hS) hO
  show round2 _ = round2 _ - round2 _ - round2 _ - round2 _ - round2 _ - round2 _
  rw [round2_pence hG, round2_pence hT, round2_pence hN, round2_pence hP, round2_pence hS,
    round2_pence hO, round2_pence hNet]

/-- Witness for net_pay_identity_pence: tax code NT, no pension scheme, no
student loan, salary below the NI threshold, whole-pound pay components:
every exact amount is a whole number of pence and the rounded identity holds
on the returned breakdown. -/
theorem net_pay_identity_pence_witness :
    (calculate_payroll ⟨9000, "NT", "none", none, none, none⟩ ⟨3000, 0, 0, 0, 0⟩).net_pay =
      (calculate_payroll ⟨9000, "NT", "none", none, none, none⟩ ⟨3000, 0, 0, 0, 0⟩).gross_pay
      - (calculate_payroll ⟨9000, "NT", "none", none, none, none⟩ ⟨3000, 0, 0, 0, 0⟩).paye_tax
      - (calculate_payroll ⟨9000, "NT", "none", none, none, none⟩
          ⟨3000, 0, 0, 0, 0⟩).national_insurance
      - (calculate_payroll ⟨9000, "NT", "none", none, none, none⟩
          ⟨3000, 0, 0, 0, 0⟩).pension_contribution
      - (calculate_payroll ⟨9000, "NT", "none", none, none, none⟩
          ⟨3000, 0, 0, 0, 0⟩).student_loan
      - (calculate_payroll ⟨9000, "NT", "none", none, none, none⟩
          ⟨3000, 0, 0, 0, 0⟩).other_deductions := by
  have hT : calculate_paye_tax "NT" (9000:ℚ) (3000 + 0 + 0 + 0) = 0 := by
    simp only [calculate_paye_tax, if_true]
    rw [if_neg (by decide), if_neg (by decide), if_neg (by decide)]
  have hN : calculate_ni_contribution (9000:ℚ) (3000 + 0 + 0 + 0) = 0 := by
    rw [ni_closed_eq]
    norm_num [min_def, max_def]
  have hPen : calculate_pension_contribution "none" none ((3000:ℚ) + 0 + 0 + 0) = 0 := rfl
  have hSl : calculate_student_loan none (9000:ℚ) ((3000:ℚ) + 0 + 0 + 0) = 0 := rfl
  exact net_pay_identity_pence ⟨9000, "NT", "none", none, none, none⟩ ⟨3000, 0, 0, 0, 0⟩
    (3000 + 0 + 0 + 0) rfl ⟨300000, by norm_num⟩ ⟨0, by rw [hT]; norm_num⟩
    ⟨0, by rw [hN]; norm_num⟩ ⟨0, by rw [hPen]; norm_num⟩ ⟨0, by rw [hSl]; norm_num⟩
    ⟨0, by norm_num⟩

/-- Counterexample to claim C3: at salary 12630.30, tax code 1257L, no
pension, basic pay 3000 and other deductions 0.387, the exact net pay is
2998.005 — it ends in a half penny.  Round-half-up would return 2998.01,
but the breakdown's net_pay is 2998.00: Python's round on a Decimal breaks
the tie to the even penny (ROUND_HALF_EVEN); the ROUND_HALF_UP the spec
promises is imported by calc.py but never used. -/
theorem rounding_half_up_cex :
    (calculate_payroll ⟨126303/10, "1257L", "none", none, none, none⟩
        ⟨3000, 0, 0, 0, 387/1000⟩).net_pay = 2998 ∧
    (3000 + 0 + 0 + 0) - calculate_paye_tax "1257L" (126303/10) (3000 + 0 + 0 + 0)
      - calculate_ni_contribution (126303/10) (3000 + 0 + 0 + 0)
      - calculate_pension_contribution "none" none (3000 + 0 + 0 + 0)
      - calculate_student_loan none (126303/10) (3000 + 0 + 0 + 0)
      - 387/1000 = 599601/200 ∧
    round2up (599601/200) = 299801/100 ∧
    (2998 : ℚ) ≠ 299801/100 := by
  have hp : calculate_paye_tax "1257L" (126303/10) (3000 + 0 + 0 + 0) = 201/200 := by
    rw [paye_numeric_eq "1257L" (by decide) (by decide) (by decide) (by decide)]
    norm_num [min_def, max_def]
  have hn : calculate_ni_contribution (126303/10) (3000 + 0 + 0 + 0) = 603/1000 := by
    rw [ni_closed_eq]
    norm_num [min_def, max_def]
  have hexact : (3000 + 0 + 0 + 0) - calculate_paye_tax "1257L" (126303/10) (3000 + 0 + 0 + 0)
      - calculate_ni_contribution (126303/10) (3000 + 0 + 0 + 0)
      - calculate_pension_contribution "none" none (3000 + 0 + 0 + 0)
      - calculate_student_loan none (126303/10) (3000 + 0 + 0 + 0)
      - 387/1000 = (599601:ℚ)/200 := by
    rw [hp, hn, show calculate_pension_contribution "none" none ((3000:ℚ) + 0 + 0 + 0) = 0
        from rfl,
      show calculate_student_loan none ((126303:ℚ)/10) (3000 + 0 + 0 + 0) = 0 from rfl]
    norm_num
  refine ⟨?_, hexact, ?_, by norm_num⟩
  · show round2 ((3000 + 0 + 0 + 0) - calculate_paye_tax "1257L" (126303/10) (3000 + 0 + 0 + 0)
      - calculate_ni_contribution (126303/10) (3000 + 0 + 0 + 0)
      - calculate_pension_contribution "none" none (3000 + 0 + 0 + 0)
      - calculate_student_loan none (126303/10) (3000 + 0 + 0 + 0) - 387/1000) = 2998
    rw [hexact, round2_eq_of_floor_tie_even (599601/200) 299800 (by norm_num)
      (by push_cast; norm_num) (by decide)]
    norm_num
  · rw [round2up_eq_of_floor_up (599601/200) 299800 (by norm_num) (by push_cast; norm_num)]
    norm_num

/-- Claim C3 (amended): in the exact-decimal model every monetary field of
the returned breakdown is the half-even 2-decimal rounding of its exact
value, hence an exact whole number of pence: multiplying any field by 100
yields an integer.  The rounding mode is ROUND_HALF_EVEN via Python round,
not the round-half-up the spec claims (see the counterexample), and the
engine converts each rounded field to binary float at the point of return,
a representation change outside this exact model. -/
theorem breakdown_fields_pence (e : Employee) (p : PayslipData) :
    isPence (calculate_payroll e p).gross_pay ∧
    isPence (calculate_payroll e p).basic_pay ∧
    isPence (calculate_payroll e p).overtime_pay ∧
    isPence (calculate_payroll e p).bonus_pay ∧
    isPence (calculate_payroll e p).other_pay ∧
    isPence (calculate_payroll e p).paye_tax ∧
    isPence (calculate_payroll e p).national_insurance ∧
    isPence (calculate_payroll e p).pension_contribution ∧
    isPence (calculate_payroll e p).student_loan ∧
    isPence (calculate_payroll e p).other_deductions ∧
    isPence (calculate_payroll e p).net_pay ∧
    isPence (calculate_payroll e p).employer_ni ∧
    isPence (calculate_payroll e p).employer_pension ∧
    isPence (calculate_payroll e p).total_employer_cost :=
  ⟨isPence_round2 _, isPence_round2 _, isPence_round2 _, isPence_round2 _, isPence_round2 _,
    isPence_round2 _, isPence_round2 _, isPence_round2 _, isPence_round2 _, isPence_round2 _,
    isPence_round2 _, isPence_round2 _, isPence_round2 _, isPence_round2 _⟩

/-- pyUpperChar maps the ASCII block into the ASCII block. -/
lemma pyUpperChar_lt_128 {c : Nat} (h : c < 128) : pyUpperChar c < 128 := by
  unfold pyUpperChar
  split_ifs <;> omega

/-- On the uppercased image of an ASCII code point, isalpha coincides with
the A-Z range (the fullwidth letters that break this equivalence in general
lie outside the ASCII block). -/
lemma alpha_iff_of_up_ascii {c : Nat} (h : ∃ c0, c0 < 128 ∧ c = pyUpperChar c0) :
    pyIsAlpha c = true ↔ isAZ c := by
  obtain ⟨c0, hlt, rfl⟩ := h
  unfold pyIsAlpha pyUpperChar isAZ
  simp only [decide_eq_true_eq]
  split_ifs <;> omega

/-- On the ASCII block, isdigit coincides with the 0-9 range (the fullwidth
and superscript digits lie outside it). -/
lemma digit_iff_ascii {c : Nat} (h : c < 128) : pyIsDigit c = true ↔ isDigitCode c := by
  unfold pyIsDigit isDigitCode
  simp only [decide_eq_true_eq]
  omega

/-- An early-return chain of three rejection tests succeeds iff all three
tests fail. -/
lemma ite3_false_true (A B C : Prop) [Decidable A] [Decidable B] [Decidable C] :
    ((if A then false else if B then false else if C then false else true) = true) ↔
      (¬A ∧ ¬B ∧ ¬C) := by
  split_ifs <;> simp_all

/-- A list of length 9 is an explicit 9-element list. -/
lemma exists_nine_of_length (n : PyStr) (h : n.length = 9) :
    ∃ c0 c1 c2 c3 c4 c5 c6 c7 c8, n = [c0, c1, c2, c3, c4, c5, c6, c7, c8] := by
  rcases n with _ | ⟨c0, _ | ⟨c1, _ | ⟨c2, _ | ⟨c3, _ | ⟨c4, _ | ⟨c5, _ | ⟨c6, _ | ⟨c7, _ |
    ⟨c8, _ | ⟨c9, t⟩⟩⟩⟩⟩⟩⟩⟩⟩⟩
  all_goals first
    | exact ⟨_, _, _, _, _, _, _, _, _, rfl⟩
    | (simp only [List.length_cons, List.length_nil] at h; omega)

/-- The slice checks of validate_core agree with the spec's 9-character
pattern on any list of uppercased ASCII characters. -/
lemma validate_core_iff (n : PyStr) (hub : ∀ c ∈ n, ∃ c0, c0 < 128 ∧ c = pyUpperChar c0) :
    validate_core n = true ↔ niNumberPattern n := by
  by_cases hlen : n.length = 9
  · obtain ⟨c0, c1, c2, c3, c4, c5, c6, c7, c8, rfl⟩ := exists_nine_of_length n hlen
    have e0 := alpha_iff_of_up_ascii (hub c0 (by simp))
    have e1 := alpha_iff_of_up_ascii (hub c1 (by simp))
    have e8 := alpha_iff_of_up_ascii (hub c8 (by simp))
    have hlt : ∀ c ∈ [c0, c1, c2, c3, c4, c5, c6, c7, c8], c < 128 := by
      intro c hc
      obtain ⟨cx, hx, rfl⟩ := hub c hc
      exact pyUpperChar_lt_128 hx
    have f2 := digit_iff_ascii (hlt c2 (by simp))
    have f3 := digit_iff_ascii (hlt c3 (by simp))
    have f4 := digit_iff_ascii (hlt c4 (by simp))
    have f5 := digit_iff_ascii (hlt c5 (by simp))
    have f6 := digit_iff_ascii (hlt c6 (by simp))
    have f7 := digit_iff_ascii (hlt c7 (by simp))
    simp only [validate_core]
    rw [ite3_false_true]
    rw [show [c0, c1, c2, c3, c4, c5, c6, c7, c8].take 2 = [c0, c1] from rfl,
      show [c0, c1, c2, c3, c4, c5, c6, c7, c8].drop 2 = [c2, c3, c4, c5, c6, c7, c8] from rfl,
      show [c2, c3, c4, c5, c6, c7, c8].take 6 = [c2, c3, c4, c5, c6, c7] from rfl,
      show [c0, c1, c2, c3, c4, c5, c6, c7, c8].drop 8 = [c8] from rfl]
    simp only [List.all_cons, List.all_nil, Bool.and_true, List.length_cons, List.length_nil,
      ne_eq, not_not, Bool.not_eq_true, niNumberPattern]
    constructor
    · rintro ⟨-, hfmt, hpre⟩
      simp only [Bool.not_eq_eq_eq_not, Bool.not_false, Bool.and_eq_true] at hfmt
      obtain ⟨⟨⟨h0, h1⟩, hd2, hd3, hd4, hd5, hd6, hd7⟩, h8⟩ := hfmt
      exact ⟨c0, c1, c2, c3, c4, c5, c6, c7, c8, rfl, e0.mp h0, e1.mp h1,
        f2.mp hd2, f3.mp hd3, f4.mp hd4, f5.mp hd5, f6.mp hd6, f7.mp hd7,
        e8.mp h8, hpre⟩
    · rintro ⟨a, b, d1, d2, d3, d4, d5, d6, z, heq, h0, h1, hd2, hd3, hd4, hd5, hd6, hd7,
        h8, hpre⟩
      simp only [List.cons.injEq, and_true] at heq
      obtain ⟨rfl, rfl, rfl, rfl, rfl, rfl, rfl, rfl, rfl⟩ := heq
      refine ⟨trivial, ?_, hpre⟩
      simp only [Bool.not_eq_eq_eq_not, Bool.not_false, Bool.and_eq_true]
      exact ⟨⟨⟨e0.mpr h0, e1.mpr h1⟩, f2.mpr hd2, f3.mpr hd3, f4.mpr hd4, f5.mpr hd5,
        f6.mpr hd6, f7.mpr hd7⟩, e8.mpr h8⟩
  · have hfalse : validate_core n = false := by
      unfold validate_core
      rw [if_pos hlen]
    rw [hfalse]
    constructor
    · intro h
      cases h
    · rintro ⟨a, b, d1, d2, d3, d4, d5, d6, z, rfl, -⟩
      exact absurd rfl hlen

/-- Counterexample to claim C9: the fullwidth Latin capitals with code
points 65313, 65314 and 65315 are letters to Python's str.isalpha and are
unchanged by str.upper, so validate_ni_number accepts the 9-character
string made of those two fullwidth letters, the ASCII digits 123456 and a
third fullwidth letter — a string that does not match the claimed pattern
of two A-Z letters, six digits and one A-Z letter.  The iff quantified
over every string is therefore false of the program. -/
theorem validate_ni_number_iff_spec_cex :
    validate_ni_number [65313, 65314, 49, 50, 51, 52, 53, 54, 65315] = true ∧
    ¬niSpec [65313, 65314, 49, 50, 51, 52, 53, 54, 65315] := by
  constructor
  · decide
  · unfold niSpec
    rw [show (([65313, 65314, 49, 50, 51, 52, 53, 54, 65315].filter
        (fun c => c != 32)).map pyUpperChar) =
          [65313, 65314, 49, 50, 51, 52, 53, 54, 65315] from rfl]
    rintro ⟨a, b, d1, d2, d3, d4, d5, d6, z, heq, h0, -⟩
    simp only [List.cons.injEq, and_true] at heq
    obtain ⟨rfl, -⟩ := heq
    exact absurd h0 (by norm_num [isAZ])

/-- Claim C9 (amended): restricted to ASCII strings (every code point below
128), validate_ni_number accepts a string exactly when, after removing
spaces and uppercasing, it is exactly 9 characters of the shape two letters
A-Z, six digits and one letter A-Z whose two-letter prefix is not in the
blocklist.  Over arbitrary strings the equivalence fails, because Python's
Unicode-wide isalpha/isdigit accept non-ASCII letters and digits the
pattern excludes (see the counterexample). -/
theorem validate_ni_number_iff_spec (s : PyStr) (hascii : ∀ c ∈ s, c < 128) :
    validate_ni_number s = true ↔ niSpec s := by
  unfold validate_ni_number niSpec
  by_cases hs : s = []
  · subst hs
    rw [if_pos rfl]
    constructor
    · intro h
      cases h
    · rintro ⟨a, b, d1, d2, d3, d4, d5, d6, z, habs, -⟩
      cases habs
  · rw [if_neg hs]
    refine validate_core_iff _ ?_
    intro c hc
    obtain ⟨c0, hc0, rfl⟩ := List.mem_map.mp hc
    exact ⟨c0, hascii c0 (List.mem_of_mem_filter hc0), rfl⟩

/-- Witness for validate_ni_number_iff_spec at the ASCII string AB123456C:
both sides of the equivalence hold. -/
theorem validate_ni_number_iff_spec_witness :
    validate_ni_number [65, 66, 49, 50, 51, 52, 53, 54, 67] = true ↔
      niSpec [65, 66, 49, 50, 51, 52, 53, 54, 67] :=
  validate_ni_number_iff_spec [65, 66, 49, 50, 51, 52, 53, 54, 67] (by decide)

end HRMS
